import Mathlib

/-
Verification of the Partition Planning & Execution Engine of the
linexin-installer repository.  The definitions below are a shallow
embedding of `installation_template_widget.py`:

  * the plan builder and executor embed `_split_and_format_partition_thread`
    (sector arithmetic, sfdisk scripting, tolerance identification,
    formatting, configuration emission);
  * the inventory embeds `_detect_partitions` (lsblk tree walk and the
    parted free-space filter).

All sector arithmetic is over `Int`, matching Python's arbitrary-precision
integers.  External commands are recorded in a trace; their outcomes are
an explicit environment parameter.
-/

namespace Installer

/- ### Basic data model -/

/-- Boot mode, from `_detect_boot_mode` (line 571): UEFI iff
`/sys/firmware/efi` exists, else legacy. -/
inductive BootMode where
  | uefi
  | legacy
deriving DecidableEq, Repr

/-- The `type` field of a selected target: `'partition'`, `'freespace'`
or `'wholedisk'` (from `_detect_partitions`). -/
inductive ItemType where
  | part
  | freespace
  | wholedisk
deriving DecidableEq, Repr

/-- Role of a created plan step. -/
inductive Role where
  | efi
  | root
deriving DecidableEq, Repr

/-- One step of a partition plan: sfdisk line `start=…, size=…, type=…`. -/
structure Step where
  role : Role
  start : Int
  size : Int
  typeCode : String
deriving DecidableEq, Repr

/-- A selected installable target, as carried in `self.selected_partition`. -/
structure Target where
  itemType : ItemType
  device : String
  startSector : Int
  sizeSectors : Int
  parentDisk : String
deriving DecidableEq, Repr

/- ### Plan builder (STEP C of `_split_and_format_partition_thread`) -/

/-- `EFI_SIZE_SECTORS = 1048576` (line 635), the fixed 512 MiB EFI
reservation in 512-byte sectors. -/
def EFI_SIZE_SECTORS : Int := 1048576

/-- Effective start sector: STEP A (line 609) overwrites the start with
2048 for a whole disk; other targets keep their own start sector. -/
def effStart (it : ItemType) (st : Int) : Int :=
  if it = ItemType.wholedisk then 2048 else st

/-- UEFI root size (lines 639-644): total minus the EFI reservation, and
additionally minus 2048 alignment plus 34 table-overhead sectors for a
whole disk. -/
def uefiRootSize (it : ItemType) (sizeSectors : Int) : Int :=
  if it = ItemType.wholedisk then
    sizeSectors - EFI_SIZE_SECTORS - 2048 - 34
  else
    sizeSectors - EFI_SIZE_SECTORS

/-- Legacy root size (lines 660-662): the whole region, minus 2048 for a
whole disk. -/
def legacySize (it : ItemType) (sizeSectors : Int) : Int :=
  if it = ItemType.wholedisk then sizeSectors - 2048 else sizeSectors

/-- External commands issued by the executor thread, in order. -/
inductive Cmd where
  | mklabel (disk : String) (label : String)
  | partprobe (disk : String)
  | umount (dev : String)
  | umountGlob (dev : String)
  | swapoff
  | sfdiskDelete (disk : String) (num : String)
  | sfdiskCreate (disk : String) (script : String)
  | udevadmSettle
  | sfdiskList (disk : String)
  | partedSetBoot (disk : String) (num : String)
  | mkfsVfat (dev : String)
  | mkfsExt4 (dev : String)
  | saveConfig
  | genFstab
deriving DecidableEq, Repr

/-- Failure taxonomy of the thread: the explicit `raise Exception`s and
the `check=True` subprocess failures (which the outer handler turns into
the ERROR state). -/
inductive Err where
  | insufficientSpace
  | creationFailed
  | detectionFailed
  | toolFailed (cmd : Cmd)
deriving DecidableEq, Repr

/-- The partition plan computed by STEP C (lines 634-666): for UEFI a
fixed-size EFI step followed by a ROOT step, guarded by the
1,000,000-sector safety check (line 648); for legacy a single ROOT step
with no safety check. -/
def build_plan (it : ItemType) (mode : BootMode) (startSector sizeSectors : Int) :
    Except Err (List Step) :=
  match mode with
  | BootMode.uefi =>
      let rootSize := uefiRootSize it sizeSectors
      if rootSize < 1000000 then
        Except.error Err.insufficientSpace
      else
        Except.ok [⟨Role.efi, startSector, EFI_SIZE_SECTORS, "U"⟩,
                   ⟨Role.root, startSector + EFI_SIZE_SECTORS, rootSize, "L"⟩]
  | BootMode.legacy =>
      Except.ok [⟨Role.root, startSector, legacySize it sizeSectors, "L"⟩]

/-- End sector (one past the last) of a step. -/
def Step.endS (s : Step) : Int := s.start + s.size

/-- Two steps occupy disjoint sector ranges. -/
def stepDisj (a b : Step) : Prop := a.endS ≤ b.start ∨ b.endS ≤ a.start

/-- All steps of a plan are pairwise disjoint. -/
def stepsDisjoint (steps : List Step) : Prop := List.Pairwise stepDisj steps

/-- Sum of the step sizes of a plan. -/
def sumSizes (steps : List Step) : Int := (steps.map Step.size).sum

/- ### Helper lemmas about the builder -/

/-- Inverting a successful UEFI build: the safety check passed and the
steps are the EFI/ROOT pair. -/
lemma build_plan_uefi_ok (it : ItemType) (st S : Int) (steps : List Step)
    (h : build_plan it BootMode.uefi st S = Except.ok steps) :
    ¬ uefiRootSize it S < 1000000 ∧
    steps = [⟨Role.efi, st, EFI_SIZE_SECTORS, "U"⟩,
             ⟨Role.root, st + EFI_SIZE_SECTORS, uefiRootSize it S, "L"⟩] := by
  simp only [build_plan] at h
  split at h
  · exact absurd h (by simp)
  · rename_i hn
    refine ⟨hn, ?_⟩
    injection h with h2
    exact h2.symm

/-- The legacy build always succeeds with a single root step. -/
lemma build_plan_legacy_eq (it : ItemType) (st S : Int) :
    build_plan it BootMode.legacy st S =
      Except.ok [⟨Role.root, st, legacySize it S, "L"⟩] := rfl

/- ### Theorems: plan-builder claims -/

/-- C1 (amended): for a UEFI plan over a region of `S` sectors, the
remainder after the EFI reservation (and the whole-disk 2048+34 overhead)
is checked against the code's safety floor of 1,000,000 sectors
(≈488 MiB, the code's "Approx 500MB" constant): below the floor the
builder fails with InsufficientSpace, otherwise it succeeds with a ROOT
step of exactly that remainder, hence at least 1,000,000 sectors. -/
theorem uefi_floor_spec (it : ItemType) (st S : Int) :
    (uefiRootSize it S < 1000000 →
      build_plan it BootMode.uefi st S = Except.error Err.insufficientSpace) ∧
    (1000000 ≤ uefiRootSize it S →
      build_plan it BootMode.uefi st S =
        Except.ok [⟨Role.efi, st, EFI_SIZE_SECTORS, "U"⟩,
                   ⟨Role.root, st + EFI_SIZE_SECTORS, uefiRootSize it S, "L"⟩] ∧
      1000000 ≤ uefiRootSize it S) := by
  constructor
  · intro h
    simp [build_plan, h]
  · intro h
    have hn : ¬ uefiRootSize it S < 1000000 := by omega
    exact ⟨by simp [build_plan, hn], h⟩

/-- C1 witness: a 60,000,000-sector existing partition builds
successfully with root size 58,951,424. -/
theorem uefi_floor_spec_witness :
    build_plan ItemType.part BootMode.uefi 4096 60000000 =
      Except.ok [⟨Role.efi, 4096, EFI_SIZE_SECTORS, "U"⟩,
                 ⟨Role.root, 4096 + EFI_SIZE_SECTORS,
                   uefiRootSize ItemType.part 60000000, "L"⟩] ∧
    (1000000 : Int) ≤ uefiRootSize ItemType.part 60000000 :=
  (uefi_floor_spec ItemType.part 4096 60000000).2 (by decide)

/-- C1 counterexample to the claim as stated: a partition of 2,048,576
sectors leaves a 1,000,000-sector root (512,000,000 bytes, below
500 MiB = 524,288,000 bytes), yet the builder succeeds rather than
failing with InsufficientSpace, and the plan's ROOT is below 500 MiB. -/
theorem uefi_floor_500MiB_counterexample :
    build_plan ItemType.part BootMode.uefi 4096 2048576 =
      Except.ok [⟨Role.efi, 4096, 1048576, "U"⟩,
                 ⟨Role.root, 1052672, 1000000, "L"⟩] ∧
    (1000000 : Int) * 512 < 500 * 1024 * 1024 :=
  ⟨rfl, by decide⟩

/-- C3 (amended): every successfully built UEFI plan is exactly the EFI
step of 1,048,576 sectors at the target's effective start (2048 for a
whole disk) followed by a ROOT step starting 1,048,576 sectors later and
covering the remaining sectors, except that on a whole disk an extra
34-sector table-overhead allowance is also subtracted. -/
theorem uefi_plan_shape (it : ItemType) (st S : Int) (steps : List Step)
    (h : build_plan it BootMode.uefi (effStart it st) S = Except.ok steps) :
    steps = [⟨Role.efi, effStart it st, 1048576, "U"⟩,
             ⟨Role.root, effStart it st + 1048576,
               S - 1048576 - (if it = ItemType.wholedisk then 2048 + 34 else 0), "L"⟩] := by
  have h2 := build_plan_uefi_ok it (effStart it st) S steps h
  rw [h2.2]
  cases it <;> simp [uefiRootSize, EFI_SIZE_SECTORS] <;> omega

/-- C3 witness: a 10,000,000-sector whole disk builds to the concrete
two-step shape. -/
theorem uefi_plan_shape_witness :
    ([⟨Role.efi, 2048, 1048576, "U"⟩,
      ⟨Role.root, 1050624, 8949342, "L"⟩] : List Step) =
      [⟨Role.efi, effStart ItemType.wholedisk 0, 1048576, "U"⟩,
       ⟨Role.root, effStart ItemType.wholedisk 0 + 1048576,
         10000000 - 1048576 -
           (if ItemType.wholedisk = ItemType.wholedisk then 2048 + 34 else 0), "L"⟩] :=
  uefi_plan_shape ItemType.wholedisk 0 10000000
    [⟨Role.efi, 2048, 1048576, "U"⟩, ⟨Role.root, 1050624, 8949342, "L"⟩] rfl

/-- C3 counterexample to the claim as stated: on a 10,000,000-sector
whole disk the built ROOT step has size 8,949,342, which is not the
remaining 10,000,000 − 2048 − 1,048,576 = 8,949,376 sectors (the code
subtracts a further 34-sector overhead allowance). -/
theorem uefi_wholedisk_remaining_counterexample :
    build_plan ItemType.wholedisk BootMode.uefi 2048 10000000 =
      Except.ok [⟨Role.efi, 2048, 1048576, "U"⟩,
                 ⟨Role.root, 1050624, 8949342, "L"⟩] ∧
    (8949342 : Int) ≠ 10000000 - 2048 - 1048576 :=
  ⟨rfl, by decide⟩

/-- C7 (confirmed): for every target the legacy plan is exactly one ROOT
step whose size is the full region, minus the 2048-sector
table-initialization overhead on a whole disk. -/
theorem legacy_plan_single_root (it : ItemType) (st S : Int) :
    build_plan it BootMode.legacy st S =
      Except.ok [⟨Role.root, st, S - (if it = ItemType.wholedisk then 2048 else 0), "L"⟩] := by
  cases it <;> simp [build_plan, legacySize]

/-- C4 (confirmed): every successfully built plan has pairwise disjoint
steps, the sum of the step sizes plus the starting offset never exceeds
the original region's start plus its size (for a whole disk the region
starts at sector 0 of the disk), and on a whole disk every step starts
at sector 2048 or later. -/
theorem plan_within_bounds (it : ItemType) (mode : BootMode) (st S : Int)
    (steps : List Step)
    (h : build_plan it mode (effStart it st) S = Except.ok steps) :
    stepsDisjoint steps ∧
    sumSizes steps + effStart it st ≤
      (if it = ItemType.wholedisk then 0 else st) + S ∧
    (it = ItemType.wholedisk → ∀ s ∈ steps, 2048 ≤ s.start) := by
  cases mode with
  | uefi =>
      have h2 := build_plan_uefi_ok it (effStart it st) S steps h
      rw [h2.2]
      refine ⟨?_, ?_, ?_⟩
      · simp [stepsDisjoint, stepDisj, Step.endS]
      · cases it <;> simp [sumSizes, uefiRootSize, effStart, EFI_SIZE_SECTORS] <;> omega
      · intro hw s hs
        subst hw
        simp only [List.mem_cons, List.not_mem_nil, or_false] at hs
        rcases hs with hs | hs <;> rw [hs] <;> simp [effStart, EFI_SIZE_SECTORS]
  | legacy =>
      rw [build_plan_legacy_eq] at h
      injection h with h2
      rw [← h2]
      refine ⟨?_, ?_, ?_⟩
      · simp [stepsDisjoint]
      · cases it <;> simp [sumSizes, legacySize, effStart] <;> omega
      · intro hw s hs
        subst hw
        simp only [List.mem_cons, List.not_mem_nil, or_false] at hs
        rw [hs]
        simp [effStart]

/-- C4 witness: the concrete whole-disk UEFI plan of 10,000,000 sectors
is disjoint, within bounds, and its ROOT step starts past sector 2048. -/
theorem plan_within_bounds_witness :
    stepsDisjoint [(⟨Role.efi, 2048, 1048576, "U"⟩ : Step),
                   ⟨Role.root, 1050624, 8949342, "L"⟩] ∧
    sumSizes [(⟨Role.efi, 2048, 1048576, "U"⟩ : Step),
              ⟨Role.root, 1050624, 8949342, "L"⟩] +
        effStart ItemType.wholedisk 0 ≤
      (if ItemType.wholedisk = ItemType.wholedisk then 0 else 0) + 10000000 ∧
    (2048 : Int) ≤ (⟨Role.root, 1050624, 8949342, "L"⟩ : Step).start := by
  have h := plan_within_bounds ItemType.wholedisk BootMode.uefi 0 10000000
      [⟨Role.efi, 2048, 1048576, "U"⟩, ⟨Role.root, 1050624, 8949342, "L"⟩] rfl
  exact ⟨h.1, h.2.1, h.2.2 rfl _ (by simp)⟩

/- ### Identification (STEP C, lines 685-728) -/

/-- One row of `sfdisk -l -o DEVICE,START,TYPE -J`: a device node and its
start sector.  An empty node string models a row whose `node`/`device`
field is missing (skipped by the loop). -/
structure TableEntry where
  node : String
  start : Int
deriving DecidableEq, Repr

/-- Tolerance acceptance (lines 695, 704): a table entry matches an
expected start iff `abs(p_start - expected) < 8192`. -/
def matchTol (pStart expected : Int) : Bool :=
  decide ((pStart - expected).natAbs < 8192)

/-- UEFI identification loop (lines 697-710): scan the table, matching
each entry against the expected EFI start and the expected ROOT start
(`start + EFI_SIZE_SECTORS`); a later match overwrites an earlier one,
rows without a node are skipped. -/
def matchUefi (entries : List TableEntry) (startSector : Int) :
    Option String × Option String :=
  entries.foldl
    (fun acc p =>
      if p.node = "" then acc
      else
        ((if matchTol p.start startSector then some p.node else acc.1),
         (if matchTol p.start (startSector + EFI_SIZE_SECTORS) then some p.node else acc.2)))
    (none, none)

/-- Legacy identification loop (lines 712-718): scan the table for an
entry whose start matches the expected ROOT start. -/
def matchLegacy (entries : List TableEntry) (startSector : Int) :
    Option String :=
  entries.foldl
    (fun acc p =>
      if p.node ≠ "" ∧ matchTol p.start startSector then some p.node else acc)
    none

/-- A required role has no match within tolerance: under UEFI either the
EFI or the ROOT expected start matched nothing; under legacy the ROOT
expected start matched nothing. -/
def roleMissing (mode : BootMode) (entries : List TableEntry) (st : Int) : Prop :=
  match mode with
  | BootMode.uefi => (matchUefi entries st).1 = none ∨ (matchUefi entries st).2 = none
  | BootMode.legacy => matchLegacy entries st = none

/- ### String helpers of the executor -/

/-- The trailing decimal digits of a device path, as matched by
`re.search` with pattern `(\d+)$` (line 622); `none` when the path ends
in a non-digit. -/
def trailingDigits (s : String) : Option String :=
  let ds := (s.toList.reverse.takeWhile Char.isDigit).reverse
  if ds.isEmpty then none else some (String.mk ds)

/-- `os.path.basename`: the component after the last slash. -/
def basename (s : String) : String := (s.splitOn "/").getLastD ""

/-- All decimal digits of a string, in order: the partition number
extraction of line 721. -/
def digitsOf (s : String) : String := String.mk (s.toList.filter Char.isDigit)

/- ### Configuration output (STEP E, lines 743-755) -/

/-- Value of one `partition_config` entry. -/
structure MountInfo where
  mountpoint : String
  bootable : Bool
  filesystem : String
deriving DecidableEq, Repr

/-- The emitted `partition_config`: insertion-ordered key/value pairs. -/
def PartitionConfig := List (String × MountInfo)

/-- Python dict assignment `m[k] = v`: replace the value if the key is
present, else append the pair. -/
def dictInsert (m : List (String × MountInfo)) (k : String) (v : MountInfo) :
    List (String × MountInfo) :=
  if m.any (fun p => p.1 = k) then
    m.map (fun p => if p.1 = k then (k, v) else p)
  else
    m ++ [(k, v)]

/- ### Executor -/

/-- Outcomes of the external commands, supplied to the model: each flag
is the success of the corresponding `check=True` call, and
`tableEntries` is the partition table read back by `sfdisk -l` after
creation. -/
structure Env where
  mklabelOk : Bool
  deleteOk : Bool
  createOk : Bool
  setBootOk : Bool
  mkfsVfatOk : Bool
  mkfsExt4Ok : Bool
  tableEntries : List TableEntry
  umountOk : Bool
  umountGlobOk : Bool
  swapoffOk : Bool
deriving Repr

/-- Partition-table label written by STEP A (line 602): GPT for UEFI,
MBR (`msdos`) for legacy. -/
def labelType (mode : BootMode) : String :=
  match mode with
  | BootMode.uefi => "gpt"
  | BootMode.legacy => "msdos"

/-- The sfdisk input script of STEP C (lines 654-666). -/
def sfdiskScript (mode : BootMode) (it : ItemType) (startSector sizeSectors : Int) :
    String :=
  match mode with
  | BootMode.uefi =>
      "start=" ++ toString startSector ++ ", size=" ++ toString EFI_SIZE_SECTORS
        ++ ", type=U\n"
        ++ "start=" ++ toString (startSector + EFI_SIZE_SECTORS) ++ ", size="
        ++ toString (uefiRootSize it sizeSectors) ++ ", type=L\n"
  | BootMode.legacy =>
      "start=" ++ toString startSector ++ ", size="
        ++ toString (legacySize it sizeSectors) ++ ", type=L\n"

/-- STEPs C-E of the thread, from partition creation onwards: creation
(with the UEFI safety check before it), sync, identification, legacy
boot-flag marking, verification, formatting and configuration emission.
Returns the external-command trace and the outcome. -/
def runFromCreate (mode : BootMode) (it : ItemType) (parentDisk : String)
    (startSector sizeSectors : Int) (env : Env) :
    List Cmd × Except Err PartitionConfig :=
  match mode with
  | BootMode.uefi =>
      if uefiRootSize it sizeSectors < 1000000 then
        ([], Except.error Err.insufficientSpace)
      else
        let script := sfdiskScript BootMode.uefi it startSector sizeSectors
        if env.createOk = false then
          ([Cmd.sfdiskCreate parentDisk script], Except.error Err.creationFailed)
        else
          let pre := [Cmd.sfdiskCreate parentDisk script, Cmd.partprobe parentDisk,
                      Cmd.udevadmSettle, Cmd.sfdiskList parentDisk]
          match matchUefi env.tableEntries startSector with
          | (some e, some r) =>
              if env.mkfsVfatOk = false then
                (pre ++ [Cmd.mkfsVfat e], Except.error (Err.toolFailed (Cmd.mkfsVfat e)))
              else if env.mkfsExt4Ok = false then
                (pre ++ [Cmd.mkfsVfat e, Cmd.mkfsExt4 r],
                 Except.error (Err.toolFailed (Cmd.mkfsExt4 r)))
              else
                (pre ++ [Cmd.mkfsVfat e, Cmd.mkfsExt4 r, Cmd.udevadmSettle,
                         Cmd.saveConfig, Cmd.genFstab],
                 Except.ok (dictInsert (dictInsert [] e ⟨"/boot", true, "vfat"⟩)
                              r ⟨"/", false, "ext4"⟩))
          | _ => (pre, Except.error Err.detectionFailed)
  | BootMode.legacy =>
      let script := sfdiskScript BootMode.legacy it startSector sizeSectors
      if env.createOk = false then
        ([Cmd.sfdiskCreate parentDisk script], Except.error Err.creationFailed)
      else
        let pre := [Cmd.sfdiskCreate parentDisk script, Cmd.partprobe parentDisk,
                    Cmd.udevadmSettle, Cmd.sfdiskList parentDisk]
        match matchLegacy env.tableEntries startSector with
        | some r =>
            let setBoot := Cmd.partedSetBoot parentDisk (digitsOf (basename r))
            if env.setBootOk = false then
              (pre ++ [setBoot], Except.error (Err.toolFailed setBoot))
            else if env.mkfsExt4Ok = false then
              (pre ++ [setBoot, Cmd.mkfsExt4 r],
               Except.error (Err.toolFailed (Cmd.mkfsExt4 r)))
            else
              (pre ++ [setBoot, Cmd.mkfsExt4 r, Cmd.udevadmSettle,
                       Cmd.saveConfig, Cmd.genFstab],
               Except.ok (dictInsert [] r ⟨"/", true, "ext4"⟩))
        | none => (pre, Except.error Err.detectionFailed)

/-- The whole `_split_and_format_partition_thread`: STEP A (labeling, for
a whole disk), STEP B (cleanup, for an existing partition: best-effort
unmount/swapoff whose outcomes are never inspected, then the fatal
delete-by-trailing-index, silently skipped when the device path has no
trailing digits), then creation onwards. -/
def runThread (t : Target) (mode : BootMode) (env : Env) :
    List Cmd × Except Err PartitionConfig :=
  match t.itemType with
  | ItemType.wholedisk =>
      let lbl := Cmd.mklabel t.parentDisk (labelType mode)
      if env.mklabelOk = false then
        ([lbl], Except.error (Err.toolFailed lbl))
      else
        let rest := runFromCreate mode ItemType.wholedisk t.parentDisk 2048
                      t.sizeSectors env
        ([lbl, Cmd.partprobe t.parentDisk] ++ rest.1, rest.2)
  | ItemType.part =>
      let pre := [Cmd.umount t.device, Cmd.umountGlob t.device, Cmd.swapoff]
      match trailingDigits t.device with
      | some n =>
          let del := Cmd.sfdiskDelete t.parentDisk n
          if env.deleteOk = false then
            (pre ++ [del], Except.error (Err.toolFailed del))
          else
            let rest := runFromCreate mode ItemType.part t.parentDisk
                          t.startSector t.sizeSectors env
            (pre ++ [del, Cmd.partprobe t.parentDisk] ++ rest.1, rest.2)
      | none =>
          let rest := runFromCreate mode ItemType.part t.parentDisk
                        t.startSector t.sizeSectors env
          (pre ++ rest.1, rest.2)
  | ItemType.freespace =>
      runFromCreate mode ItemType.freespace t.parentDisk t.startSector
        t.sizeSectors env

/-- Is this command a format (`mkfs`) invocation? -/
def isMkfs : Cmd → Bool
  | Cmd.mkfsVfat _ => true
  | Cmd.mkfsExt4 _ => true
  | _ => false

/-- Is this command a table-entry delete? -/
def isDelete : Cmd → Bool
  | Cmd.sfdiskDelete _ _ => true
  | _ => false

/-- A trace contains no format invocation. -/
def noFormat (tr : List Cmd) : Prop := ∀ c ∈ tr, isMkfs c = false

/-- A trace contains no table-entry delete. -/
def noDelete (tr : List Cmd) : Prop := ∀ c ∈ tr, isDelete c = false

/-- Format-freedom is preserved by trace concatenation. -/
lemma noFormat_append (a b : List Cmd) (ha : noFormat a) (hb : noFormat b) :
    noFormat (a ++ b) := by
  intro c hc
  rcases List.mem_append.mp hc with h | h
  · exact ha c h
  · exact hb c h

/-- Delete-freedom is preserved by trace concatenation. -/
lemma noDelete_append (a b : List Cmd) (ha : noDelete a) (hb : noDelete b) :
    noDelete (a ++ b) := by
  intro c hc
  rcases List.mem_append.mp hc with h | h
  · exact ha c h
  · exact hb c h

/- ### Theorems: identification tolerance -/

/-- C6 (confirmed): the tolerance test is symmetric and deterministic
around every expected start E: an entry at E ± 8191 sectors is accepted,
an entry at E ± 8193 sectors is rejected; accordingly the legacy
identification scan matches a lone entry at E + 8191 and misses a lone
entry at E + 8193. -/
theorem tolerance_boundary (E : Int) :
    matchTol (E + 8191) E = true ∧ matchTol (E - 8191) E = true ∧
    matchTol (E + 8193) E = false ∧ matchTol (E - 8193) E = false ∧
    matchLegacy [⟨"p", E + 8191⟩] E = some "p" ∧
    matchLegacy [⟨"p", E + 8193⟩] E = none := by
  have h1 : E + 8191 - E = (8191 : Int) := by ring
  have h2 : E - 8191 - E = (-8191 : Int) := by ring
  have h3 : E + 8193 - E = (8193 : Int) := by ring
  have h4 : E - 8193 - E = (-8193 : Int) := by ring
  refine ⟨?_, ?_, ?_, ?_, ?_, ?_⟩
  · simp [matchTol, h1]
  · simp [matchTol, h2]
  · simp [matchTol, h3]
  · simp [matchTol, h4]
  · simp [matchLegacy, matchTol, h1]
  · simp [matchLegacy, matchTol, h3]

/- ### Helper lemmas about the executor -/

/-- No branch of the creation-onwards phase ever issues a table delete. -/
lemma runFromCreate_noDelete (mode : BootMode) (it : ItemType) (pd : String)
    (st sz : Int) (env : Env) :
    noDelete (runFromCreate mode it pd st sz env).1 := by
  unfold noDelete runFromCreate
  cases mode <;> dsimp only <;> repeat' split
  all_goals simp [isDelete]

/-- If creation succeeded but identification finds no match for a
required role, the creation-onwards phase fails with DetectionFailed and
issues no format command. -/
lemma runFromCreate_detect (mode : BootMode) (it : ItemType) (pd : String)
    (st sz : Int) (env : Env)
    (hcr : env.createOk = true)
    (hsafe : mode = BootMode.uefi → 1000000 ≤ uefiRootSize it sz)
    (hmiss : roleMissing mode env.tableEntries st) :
    (runFromCreate mode it pd st sz env).2 = Except.error Err.detectionFailed ∧
    noFormat (runFromCreate mode it pd st sz env).1 := by
  cases mode with
  | uefi =>
      have hs := hsafe rfl
      have hn : ¬ uefiRootSize it sz < 1000000 := by omega
      simp only [roleMissing] at hmiss
      rcases hM : matchUefi env.tableEntries st with ⟨o1, o2⟩
      rw [hM] at hmiss
      simp only [runFromCreate, hn, if_false, hcr, hM]
      cases o1 <;> cases o2 <;>
        simp_all [noFormat, isMkfs]
  | legacy =>
      simp only [roleMissing] at hmiss
      simp only [runFromCreate, hcr, hmiss]
      simp [noFormat, isMkfs]

/-- Successful UEFI creation-onwards phase: with all tools succeeding and
both roles identified at distinct nodes, the run formats both nodes and
emits the UEFI configuration, handing it to the two collaborators. -/
lemma runFromCreate_uefi_success (it : ItemType) (pd : String) (st sz : Int)
    (env : Env) (e r : String)
    (hcr : env.createOk = true) (hvfat : env.mkfsVfatOk = true)
    (hext : env.mkfsExt4Ok = true)
    (hsafe : 1000000 ≤ uefiRootSize it sz)
    (hM : matchUefi env.tableEntries st = (some e, some r)) (hne : e ≠ r) :
    runFromCreate BootMode.uefi it pd st sz env =
      ([Cmd.sfdiskCreate pd (sfdiskScript BootMode.uefi it st sz),
        Cmd.partprobe pd, Cmd.udevadmSettle, Cmd.sfdiskList pd,
        Cmd.mkfsVfat e, Cmd.mkfsExt4 r, Cmd.udevadmSettle,
        Cmd.saveConfig, Cmd.genFstab],
       Except.ok [(e, ⟨"/boot", true, "vfat"⟩), (r, ⟨"/", false, "ext4"⟩)]) := by
  have hn : ¬ uefiRootSize it sz < 1000000 := by omega
  simp only [runFromCreate, hn, if_false, hcr, hM]
  simp [dictInsert, hvfat, hext]
  exact fun h => absurd h hne

/-- Successful legacy creation-onwards phase: with all tools succeeding
and the ROOT role identified, the run marks the boot flag, formats the
node and emits the legacy configuration. -/
lemma runFromCreate_legacy_success (it : ItemType) (pd : String) (st sz : Int)
    (env : Env) (r : String)
    (hcr : env.createOk = true) (hboot : env.setBootOk = true)
    (hext : env.mkfsExt4Ok = true)
    (hM : matchLegacy env.tableEntries st = some r) :
    runFromCreate BootMode.legacy it pd st sz env =
      ([Cmd.sfdiskCreate pd (sfdiskScript BootMode.legacy it st sz),
        Cmd.partprobe pd, Cmd.udevadmSettle, Cmd.sfdiskList pd,
        Cmd.partedSetBoot pd (digitsOf (basename r)), Cmd.mkfsExt4 r,
        Cmd.udevadmSettle, Cmd.saveConfig, Cmd.genFstab],
       Except.ok [(r, ⟨"/", true, "ext4"⟩)]) := by
  simp only [runFromCreate, hcr, hM]
  simp [dictInsert, hboot, hext]

/-- The run is insensitive to the outcomes of the best-effort
unmount/umount-glob/swapoff calls: the thread never inspects them. -/
lemma runThread_cleanup_flags (t : Target) (mode : BootMode)
    (a b c d e f : Bool) (ents : List TableEntry) (u1 u2 u3 v1 v2 v3 : Bool) :
    runThread t mode ⟨a, b, c, d, e, f, ents, u1, u2, u3⟩ =
    runThread t mode ⟨a, b, c, d, e, f, ents, v1, v2, v3⟩ := by
  obtain ⟨it, dev, st, sz, pd⟩ := t
  cases it <;> cases mode <;> rfl

/-- Decomposition of a whole-disk run after a successful labeling. -/
lemma runThread_wholedisk_eq (dev pd : String) (st sz : Int) (mode : BootMode)
    (env : Env) (hml : env.mklabelOk = true) :
    runThread ⟨ItemType.wholedisk, dev, st, sz, pd⟩ mode env =
      ([Cmd.mklabel pd (labelType mode), Cmd.partprobe pd] ++
         (runFromCreate mode ItemType.wholedisk pd 2048 sz env).1,
       (runFromCreate mode ItemType.wholedisk pd 2048 sz env).2) := by
  simp [runThread, hml]

/-- Decomposition of an existing-partition run whose device path ends in
digits, after a successful delete. -/
lemma runThread_part_digits_eq (dev pd n : String) (st sz : Int)
    (mode : BootMode) (env : Env)
    (htd : trailingDigits dev = some n) (hdel : env.deleteOk = true) :
    runThread ⟨ItemType.part, dev, st, sz, pd⟩ mode env =
      ([Cmd.umount dev, Cmd.umountGlob dev, Cmd.swapoff,
        Cmd.sfdiskDelete pd n, Cmd.partprobe pd] ++
         (runFromCreate mode ItemType.part pd st sz env).1,
       (runFromCreate mode ItemType.part pd st sz env).2) := by
  simp [runThread, htd, hdel]

/-- Decomposition of an existing-partition run whose device path has no
trailing digits: the delete step is skipped outright. -/
lemma runThread_part_nodigits_eq (dev pd : String) (st sz : Int)
    (mode : BootMode) (env : Env) (htd : trailingDigits dev = none) :
    runThread ⟨ItemType.part, dev, st, sz, pd⟩ mode env =
      ([Cmd.umount dev, Cmd.umountGlob dev, Cmd.swapoff] ++
         (runFromCreate mode ItemType.part pd st sz env).1,
       (runFromCreate mode ItemType.part pd st sz env).2) := by
  simp [runThread, htd]

/-- Decomposition of a free-space run: no labeling, no cleanup. -/
lemma runThread_freespace_eq (dev pd : String) (st sz : Int)
    (mode : BootMode) (env : Env) :
    runThread ⟨ItemType.freespace, dev, st, sz, pd⟩ mode env =
      runFromCreate mode ItemType.freespace pd st sz env := rfl

/- ### Theorems: executor claims -/

/-- C5 (confirmed): when every step up to identification succeeds but the
re-read table has no entry within tolerance for a required role (EFI or
ROOT under UEFI, ROOT under legacy), the run ends in the
DetectionFailed error and its command trace contains no mkfs
invocation. -/
theorem identify_fail_no_format (t : Target) (mode : BootMode) (env : Env)
    (hml : env.mklabelOk = true) (hdel : env.deleteOk = true)
    (hcr : env.createOk = true)
    (hsafe : mode = BootMode.uefi → 1000000 ≤ uefiRootSize t.itemType t.sizeSectors)
    (hmiss : roleMissing mode env.tableEntries (effStart t.itemType t.startSector)) :
    (runThread t mode env).2 = Except.error Err.detectionFailed ∧
    noFormat (runThread t mode env).1 := by
  obtain ⟨it, dev, st, sz, pd⟩ := t
  dsimp only at hsafe hmiss ⊢
  cases it with
  | wholedisk =>
      have hmiss2 : roleMissing mode env.tableEntries 2048 := by
        simpa [effStart] using hmiss
      have hrest := runFromCreate_detect mode ItemType.wholedisk pd 2048 sz env
        hcr hsafe hmiss2
      rw [runThread_wholedisk_eq dev pd st sz mode env hml]
      refine ⟨hrest.1, ?_⟩
      refine noFormat_append _ _ ?_ hrest.2
      intro c hc
      simp only [List.mem_cons, List.not_mem_nil, or_false] at hc
      rcases hc with rfl | rfl <;> rfl
  | part =>
      have hmiss2 : roleMissing mode env.tableEntries st := by
        simpa [effStart] using hmiss
      have hrest := runFromCreate_detect mode ItemType.part pd st sz env
        hcr hsafe hmiss2
      cases htd : trailingDigits dev with
      | some n =>
          rw [runThread_part_digits_eq dev pd n st sz mode env htd hdel]
          refine ⟨hrest.1, ?_⟩
          refine noFormat_append _ _ ?_ hrest.2
          intro c hc
          simp only [List.mem_cons, List.not_mem_nil, or_false] at hc
          rcases hc with rfl | rfl | rfl | rfl | rfl <;> rfl
      | none =>
          rw [runThread_part_nodigits_eq dev pd st sz mode env htd]
          refine ⟨hrest.1, ?_⟩
          refine noFormat_append _ _ ?_ hrest.2
          intro c hc
          simp only [List.mem_cons, List.not_mem_nil, or_false] at hc
          rcases hc with rfl | rfl | rfl <;> rfl
  | freespace =>
      have hmiss2 : roleMissing mode env.tableEntries st := by
        simpa [effStart] using hmiss
      have hrest := runFromCreate_detect mode ItemType.freespace pd st sz env
        hcr hsafe hmiss2
      rw [runThread_freespace_eq dev pd st sz mode env]
      exact hrest

/-- C5 witness: a free-space target whose re-read table is empty ends in
DetectionFailed with no mkfs in the trace. -/
theorem identify_fail_no_format_witness :
    (runThread ⟨ItemType.freespace, "Unallocated Space", 4096, 60000000, "/dev/sda"⟩
        BootMode.uefi ⟨true, true, true, true, true, true, [], true, true, true⟩).2 =
      Except.error Err.detectionFailed ∧
    noFormat (runThread ⟨ItemType.freespace, "Unallocated Space", 4096, 60000000, "/dev/sda"⟩
        BootMode.uefi ⟨true, true, true, true, true, true, [], true, true, true⟩).1 :=
  identify_fail_no_format
    ⟨ItemType.freespace, "Unallocated Space", 4096, 60000000, "/dev/sda"⟩
    BootMode.uefi ⟨true, true, true, true, true, true, [], true, true, true⟩
    rfl rfl rfl (fun _ => by decide) (Or.inl rfl)

/-- C8 (confirmed): during cleanup of an existing partition the outcomes
of the unmount and swapoff sub-steps are ignored (the run is unchanged
whatever they return), while a failing table-entry delete aborts the
run right there with the delete's tool error: nothing after the delete
command is issued. -/
theorem clean_error_policy (t : Target) (mode : BootMode) (env : Env) (n : String)
    (hp : t.itemType = ItemType.part) (hd : trailingDigits t.device = some n) :
    (∀ u g s, runThread t mode
        { env with umountOk := u, umountGlobOk := g, swapoffOk := s } =
        runThread t mode env) ∧
    (env.deleteOk = false →
      runThread t mode env =
        ([Cmd.umount t.device, Cmd.umountGlob t.device, Cmd.swapoff,
          Cmd.sfdiskDelete t.parentDisk n],
         Except.error (Err.toolFailed (Cmd.sfdiskDelete t.parentDisk n)))) := by
  constructor
  · intro u g s
    cases env
    exact runThread_cleanup_flags t mode _ _ _ _ _ _ _ _ _ _ _ _ _
  · intro hdel
    obtain ⟨it, dev, st, sz, pd⟩ := t
    dsimp only at hp hd ⊢
    subst hp
    simp [runThread, hd, hdel]

/-- Demonstration target: the existing partition `/dev/sda3`. -/
def demoTargetPart : Target :=
  ⟨ItemType.part, "/dev/sda3", 4096, 60000000, "/dev/sda"⟩

/-- Demonstration environment in which the table-entry delete fails and
every other external call succeeds. -/
def demoEnvDeleteFail : Env :=
  ⟨true, false, true, true, true, true, [], true, true, true⟩

/-- C8 witness: on `/dev/sda3` with a failing delete, the run stops at
the delete command, and flipping the unmount/swapoff outcomes changes
nothing. -/
theorem clean_error_policy_witness :
    runThread demoTargetPart BootMode.uefi
        { demoEnvDeleteFail with umountOk := false, umountGlobOk := false, swapoffOk := false } =
      runThread demoTargetPart BootMode.uefi demoEnvDeleteFail ∧
    runThread demoTargetPart BootMode.uefi demoEnvDeleteFail =
      ([Cmd.umount "/dev/sda3", Cmd.umountGlob "/dev/sda3", Cmd.swapoff,
        Cmd.sfdiskDelete "/dev/sda" "3"],
       Except.error (Err.toolFailed (Cmd.sfdiskDelete "/dev/sda" "3"))) := by
  have h := clean_error_policy demoTargetPart BootMode.uefi demoEnvDeleteFail
    "3" rfl rfl
  exact ⟨h.1 false false false, h.2 rfl⟩

/-- C9 (confirmed): on a fully successful run the emitted configuration
maps, under UEFI, the identified EFI node to mountpoint `/boot`
(bootable, vfat) and the ROOT node to `/` (not bootable, ext4); under
legacy exactly the ROOT node to `/` (bootable, ext4); and in both modes
the run hands the configuration to the two external collaborators
(`save_partition_config`, `generate_and_apply_fstab`). -/
theorem config_emission (t : Target) (env : Env) (e r rl : String)
    (hml : env.mklabelOk = true) (hdel : env.deleteOk = true)
    (hcr : env.createOk = true) (hboot : env.setBootOk = true)
    (hvfat : env.mkfsVfatOk = true) (hext : env.mkfsExt4Ok = true) :
    (1000000 ≤ uefiRootSize t.itemType t.sizeSectors →
      matchUefi env.tableEntries (effStart t.itemType t.startSector) =
        (some e, some r) →
      e ≠ r →
      (runThread t BootMode.uefi env).2 =
        Except.ok [(e, ⟨"/boot", true, "vfat"⟩), (r, ⟨"/", false, "ext4"⟩)] ∧
      Cmd.saveConfig ∈ (runThread t BootMode.uefi env).1 ∧
      Cmd.genFstab ∈ (runThread t BootMode.uefi env).1) ∧
    (matchLegacy env.tableEntries (effStart t.itemType t.startSector) = some rl →
      (runThread t BootMode.legacy env).2 =
        Except.ok [(rl, ⟨"/", true, "ext4"⟩)] ∧
      Cmd.saveConfig ∈ (runThread t BootMode.legacy env).1 ∧
      Cmd.genFstab ∈ (runThread t BootMode.legacy env).1) := by
  obtain ⟨it, dev, st, sz, pd⟩ := t
  dsimp only
  constructor
  · intro hsafe hM hne
    cases it with
    | wholedisk =>
        rw [runThread_wholedisk_eq dev pd st sz BootMode.uefi env hml,
            runFromCreate_uefi_success ItemType.wholedisk pd 2048 sz env e r
              hcr hvfat hext hsafe (by simpa [effStart] using hM) hne]
        simp
    | part =>
        cases htd : trailingDigits dev with
        | some n =>
            rw [runThread_part_digits_eq dev pd n st sz BootMode.uefi env htd hdel,
                runFromCreate_uefi_success ItemType.part pd st sz env e r
                  hcr hvfat hext hsafe (by simpa [effStart] using hM) hne]
            simp
        | none =>
            rw [runThread_part_nodigits_eq dev pd st sz BootMode.uefi env htd,
                runFromCreate_uefi_success ItemType.part pd st sz env e r
                  hcr hvfat hext hsafe (by simpa [effStart] using hM) hne]
            simp
    | freespace =>
        rw [runThread_freespace_eq dev pd st sz BootMode.uefi env,
            runFromCreate_uefi_success ItemType.freespace pd st sz env e r
              hcr hvfat hext hsafe (by simpa [effStart] using hM) hne]
        simp
  · intro hM
    cases it with
    | wholedisk =>
        rw [runThread_wholedisk_eq dev pd st sz BootMode.legacy env hml,
            runFromCreate_legacy_success ItemType.wholedisk pd 2048 sz env rl
              hcr hboot hext (by simpa [effStart] using hM)]
        simp
    | part =>
        cases htd : trailingDigits dev with
        | some n =>
            rw [runThread_part_digits_eq dev pd n st sz BootMode.legacy env htd hdel,
                runFromCreate_legacy_success ItemType.part pd st sz env rl
                  hcr hboot hext (by simpa [effStart] using hM)]
            simp
        | none =>
            rw [runThread_part_nodigits_eq dev pd st sz BootMode.legacy env htd,
                runFromCreate_legacy_success ItemType.part pd st sz env rl
                  hcr hboot hext (by simpa [effStart] using hM)]
            simp
    | freespace =>
        rw [runThread_freespace_eq dev pd st sz BootMode.legacy env,
            runFromCreate_legacy_success ItemType.freespace pd st sz env rl
              hcr hboot hext (by simpa [effStart] using hM)]
        simp

/-- Demonstration free-space target of 60,000,000 sectors. -/
def demoTargetFree : Target :=
  ⟨ItemType.freespace, "Unallocated Space", 4096, 60000000, "/dev/sda"⟩

/-- Demonstration environment in which every external call succeeds and
the re-read table holds the two freshly created entries. -/
def demoEnvOk : Env :=
  ⟨true, true, true, true, true, true,
   [⟨"/dev/sda1", 4096⟩, ⟨"/dev/sda2", 1052672⟩], true, true, true⟩

/-- C9 witness: the concrete free-space run emits the expected UEFI and
legacy configurations and invokes both collaborators. -/
theorem config_emission_witness :
    ((runThread demoTargetFree BootMode.uefi demoEnvOk).2 =
        Except.ok [("/dev/sda1", ⟨"/boot", true, "vfat"⟩),
                   ("/dev/sda2", ⟨"/", false, "ext4"⟩)] ∧
      Cmd.saveConfig ∈ (runThread demoTargetFree BootMode.uefi demoEnvOk).1 ∧
      Cmd.genFstab ∈ (runThread demoTargetFree BootMode.uefi demoEnvOk).1) ∧
    ((runThread demoTargetFree BootMode.legacy demoEnvOk).2 =
        Except.ok [("/dev/sda1", ⟨"/", true, "ext4"⟩)] ∧
      Cmd.saveConfig ∈ (runThread demoTargetFree BootMode.legacy demoEnvOk).1 ∧
      Cmd.genFstab ∈ (runThread demoTargetFree BootMode.legacy demoEnvOk).1) := by
  have h := config_emission demoTargetFree demoEnvOk "/dev/sda1" "/dev/sda2" "/dev/sda1"
    rfl rfl rfl rfl rfl rfl
  exact ⟨h.1 (by decide) (by decide) (by decide), h.2 (by decide)⟩

/-- C10 (confirmed): on an existing partition whose device path has no
trailing decimal digits, the run silently skips the table-entry delete —
no error is raised by the cleanup phase, no delete command ever appears
in the trace — and proceeds directly to the creation phase. -/
theorem no_trailing_digits_skips_delete (t : Target) (mode : BootMode)
    (env : Env)
    (hp : t.itemType = ItemType.part) (hd : trailingDigits t.device = none) :
    runThread t mode env =
      ([Cmd.umount t.device, Cmd.umountGlob t.device, Cmd.swapoff] ++
         (runFromCreate mode ItemType.part t.parentDisk t.startSector
            t.sizeSectors env).1,
       (runFromCreate mode ItemType.part t.parentDisk t.startSector
          t.sizeSectors env).2) ∧
    noDelete (runThread t mode env).1 := by
  obtain ⟨it, dev, st, sz, pd⟩ := t
  dsimp only at hp hd ⊢
  subst hp
  have h1 := runThread_part_nodigits_eq dev pd st sz mode env hd
  refine ⟨h1, ?_⟩
  rw [h1]
  refine noDelete_append _ _ ?_
    (runFromCreate_noDelete mode ItemType.part pd st sz env)
  intro c hc
  simp only [List.mem_cons, List.not_mem_nil, or_false] at hc
  rcases hc with rfl | rfl | rfl <;> rfl

/-- Demonstration target whose device path ends in a non-digit. -/
def demoTargetNoDigits : Target :=
  ⟨ItemType.part, "/dev/mapper/linexin", 4096, 60000000, "/dev/sda"⟩

/-- C10 witness: the run on `/dev/mapper/linexin` skips the delete and
goes straight to creation. -/
theorem no_trailing_digits_skips_delete_witness :
    runThread demoTargetNoDigits BootMode.uefi demoEnvOk =
      ([Cmd.umount "/dev/mapper/linexin", Cmd.umountGlob "/dev/mapper/linexin",
        Cmd.swapoff] ++
         (runFromCreate BootMode.uefi ItemType.part "/dev/sda" 4096 60000000
            demoEnvOk).1,
       (runFromCreate BootMode.uefi ItemType.part "/dev/sda" 4096 60000000
          demoEnvOk).2) ∧
    noDelete (runThread demoTargetNoDigits BootMode.uefi demoEnvOk).1 :=
  no_trailing_digits_skips_delete demoTargetNoDigits BootMode.uefi demoEnvOk
    rfl rfl

/- ### Block Device Inventory (`_detect_partitions`, lines 286-460) -/

/-- The `type` field of one lsblk JSON node. -/
inductive BlockType where
  | disk
  | part
  | other
deriving DecidableEq, Repr

/-- One node of the `lsblk -J -b` output tree: name, byte-exact size,
type, parent-kernel-name, start sector and children. -/
inductive LsblkNode where
  | mk (name : String) (size : Int) (btype : BlockType)
      (pkname : Option String) (start : Option Int)
      (children : List LsblkNode)
deriving Repr

/-- The node's type field. -/
def LsblkNode.btype : LsblkNode → BlockType
  | LsblkNode.mk _ _ b _ _ _ => b

/-- One entry appended to `self.partitions` by `_detect_partitions`. -/
structure TargetRec where
  ttype : ItemType
  device : String
  name : String
  size_gb : Int
  size_sectors : Int
  start_sector : Option Int
  parent_disk : Option String
deriving DecidableEq, Repr

mutual

/-- `_process_node` (lines 311-392): a disk with no partition children is
appended as a whole-disk candidate, every partition node is appended as a
partition candidate, and children are processed recursively; the first
disk seen on the path down becomes the root parent disk.  Exactly as in
the source, no minimum-size check is applied to disks or partitions. -/
def processNode (rootParent : Option String) : LsblkNode → List TargetRec
  | LsblkNode.mk nm size btype pk st children =>
      let devPath := "/dev/" ++ nm
      let rootParent2 :=
        if btype = BlockType.disk ∧ rootParent = none then some devPath
        else rootParent
      let own : List TargetRec :=
        match btype with
        | BlockType.disk =>
            if children.any (fun c => c.btype == BlockType.part) then []
            else
              [{ ttype := ItemType.wholedisk, device := devPath, name := nm,
                 size_gb := size / (1024 ^ 3), size_sectors := size / 512,
                 start_sector := some 2048, parent_disk := some devPath }]
        | BlockType.part =>
            let parent :=
              match rootParent2 with
              | some d => some d
              | none => pk.map (fun p => "/dev/" ++ p)
            [{ ttype := ItemType.part, device := devPath, name := nm,
               size_gb := size / (1024 ^ 3), size_sectors := size / 512,
               start_sector := st, parent_disk := parent }]
        | BlockType.other => []
      own ++ processNodes rootParent2 children

/-- Fold of `_process_node` over a list of sibling nodes. -/
def processNodes (rootParent : Option String) : List LsblkNode → List TargetRec
  | [] => []
  | n :: rest => processNode rootParent n ++ processNodes rootParent rest

end

/-- The free-space acceptance test (lines 429-434): a parted `free` row
is kept iff its size converted to whole megabytes is at least 256. -/
def freeSpaceKeep (sizeSectors : Int) : Bool :=
  decide (256 ≤ sizeSectors * 512 / (1024 ^ 2))

/-- A 10 GiB partition `sda1`. -/
def demoPart10G : LsblkNode :=
  LsblkNode.mk "sda1" (10 * 1024 ^ 3) BlockType.part (some "sda") (some 2048) []

/-- A 500 GiB disk `sda` carrying only the 10 GiB partition. -/
def demoDiskWithPart : LsblkNode :=
  LsblkNode.mk "sda" (500 * 1024 ^ 3) BlockType.disk none none [demoPart10G]

/-- A 10 GiB disk `sdb` with no partition table. -/
def demoEmptyDisk : LsblkNode :=
  LsblkNode.mk "sdb" (10 * 1024 ^ 3) BlockType.disk none none []

/-- C2 (code bug): the detection pass applies no minimum-size filter to
partitions or whole disks — a 10 GiB partition and a 10 GiB raw disk,
both far below the documented 25 GB threshold, are returned as
installable targets (only free-space rows are filtered, at the 256 MB
mark: 524,288 sectors are kept, 524,287 are rejected). -/
theorem detection_keeps_undersized :
    processNodes none [demoDiskWithPart, demoEmptyDisk] =
      [{ ttype := ItemType.part, device := "/dev/sda1", name := "sda1",
         size_gb := 10, size_sectors := 20971520,
         start_sector := some 2048, parent_disk := some "/dev/sda" },
       { ttype := ItemType.wholedisk, device := "/dev/sdb", name := "sdb",
         size_gb := 10, size_sectors := 20971520,
         start_sector := some 2048, parent_disk := some "/dev/sdb" }] ∧
    (10 : Int) < 25 ∧
    freeSpaceKeep 524288 = true ∧ freeSpaceKeep 524287 = false := by
  refine ⟨rfl, by decide, by decide, by decide⟩

end Installer
